import Mathlib

/-
Verification development for the GIF resize service (src/back/app.py).

The service is a single Flask endpoint `POST /api/optimize-gif` plus one
processing function `optimize_gif_with_pillow_and_gifsicle`.  The shallow
embedding below translates the Python source into Lean:

  * bytes are `List Nat` (each entry a byte value);
  * the external world seen by one pipeline invocation (the wall clock read
    by `time.time()`, the Pillow decode outcome, the Pillow save outcome,
    the gifsicle subprocess outcome, the gifsicle output file) is an
    explicit `PipelineEnv` record, one per invocation;
  * filesystem activity is recorded as a trace of `FsOp` values and as
    existence flags for the three scratch files;
  * JSON result entries are association lists in Python dict insertion
    order, so that the presence or absence of a key is observable;
  * fallible parsing returns `Option`.
-/

/-! ## JSON values and result entries -/

/-- A JSON scalar as produced by the handler: `null`, a string, or an
integer. -/
inductive JVal where
  | jnull : JVal
  | jstr : String → JVal
  | jnum : Int → JVal
deriving DecidableEq, Repr

/-- One entry of the `results` array: a Python dict modelled as an
association list in insertion order, so a missing key is distinguishable
from a key bound to `null`. -/
abbrev Entry : Type := List (String × JVal)

/-- The keys of a result entry, in insertion order. -/
def entryKeys (e : Entry) : List String := e.map Prod.fst

/-- Looks up a key in a result entry (first binding wins, as in a dict). -/
def entryGet (e : Entry) (k : String) : Option JVal :=
  (e.find? (fun p => p.fst == k)).map Prod.snd

/-! ## Python `int()` on form-field strings

`optimize_gif_endpoint` runs `int(request.form.get('lossy', 200))`.
`int` is a Python builtin; it is modelled here on decimal strings:
surrounding whitespace is stripped, an optional single sign is allowed,
and then one or more ASCII digits are required. -/

/-- ASCII whitespace as recognised by Python's `str.strip` and by the
whitespace skipping of `int()`. -/
def pyIsSpace (ch : Char) : Bool :=
  ch = ' ' || ch = '\t' || ch = '\n' || ch = '\r' || ch = '\x0b' || ch = '\x0c'

/-- Removes leading and trailing whitespace from a character list. -/
def pyStripChars (cs : List Char) : List Char :=
  ((cs.dropWhile pyIsSpace).reverse.dropWhile pyIsSpace).reverse

/-- Model of Python `str.strip()`. -/
def pyStrip (s : String) : String := String.mk (pyStripChars s.toList)

/-- The numeric value of an ASCII digit, if the character is one. -/
def digitVal (ch : Char) : Option Nat :=
  if '0' ≤ ch ∧ ch ≤ '9' then some (ch.toNat - '0'.toNat) else none

/-- Folds a digit string into a natural number; fails on a non-digit. -/
def digitsToNatAux : Nat → List Char → Option Nat
  | acc, [] => some acc
  | acc, ch :: rest =>
    match digitVal ch with
    | some d => digitsToNatAux (acc * 10 + d) rest
    | none => none

/-- Parses a non-empty all-digit string into a natural number. -/
def digitsToNat (ds : List Char) : Option Nat :=
  if ds.isEmpty then none else digitsToNatAux 0 ds

/-- Model of Python `int(s)` for decimal strings: strip whitespace, allow
one optional sign, then require at least one digit.  Returns `none` where
Python raises `ValueError`. -/
def pyInt (s : String) : Option Int :=
  match pyStripChars s.toList with
  | '+' :: ds => (digitsToNat ds).map Int.ofNat
  | '-' :: ds => (digitsToNat ds).map (fun n => -(n : Int))
  | ds => (digitsToNat ds).map Int.ofNat

/-! ## Base64

The handler calls `base64.b64encode(optimized_data).decode('utf-8')`.
The standard base64 alphabet with `=` padding is implemented directly. -/

/-- The standard base64 alphabet. -/
def b64Table : List Char :=
  "ABCDEFGHIJKLMNOPQRSTUVWXYZabcdefghijklmnopqrstuvwxyz0123456789+/".toList

/-- The base64 character for a 6-bit value. -/
def b64Char (n : Nat) : Char := b64Table.getD n 'A'

/-- Base64-encodes a byte list, three input bytes to four output
characters, padding the final group with `=`. -/
def b64encodeList : List Nat → List Char
  | [] => []
  | [a] =>
    let a' := a % 256
    [b64Char (a' / 4), b64Char (a' % 4 * 16), '=', '=']
  | [a, b] =>
    let a' := a % 256
    let b' := b % 256
    [b64Char (a' / 4), b64Char (a' % 4 * 16 + b' / 16), b64Char (b' % 16 * 4), '=']
  | a :: b :: c :: rest =>
    let a' := a % 256
    let b' := b % 256
    let c' := c % 256
    b64Char (a' / 4) :: b64Char (a' % 4 * 16 + b' / 16) ::
      b64Char (b' % 16 * 4 + c' / 64) :: b64Char (c' % 64) :: b64encodeList rest

/-- Model of `base64.b64encode(bs).decode('utf-8')`. -/
def b64encode (bs : List Nat) : String := String.mk (b64encodeList bs)

/-! ## Pipeline environment

Everything `optimize_gif_with_pillow_and_gifsicle` observes from outside
its own code, gathered into one record per invocation. -/

/-- Outcome of `Image.open` plus the frame metadata reads: either an
exception with a message, or a frame count `n_frames` and the first
frame's `duration` metadata (absent when the key is missing). -/
inductive DecodeOutcome where
  | fail : String → DecodeOutcome
  | ok : Nat → Option Nat → DecodeOutcome
deriving DecidableEq, Repr

/-- Outcome of the `subprocess.run` gifsicle invocation: process exit with
a return code and captured stderr, or expiry of the 90-second timeout. -/
inductive GifsicleOutcome where
  | exited : Int → String → GifsicleOutcome
  | timedOut : GifsicleOutcome
deriving DecidableEq, Repr

/-- A filesystem action performed by one pipeline invocation, recorded in
order. -/
inductive FsOp where
  | writeFile : String → FsOp
  | readFile : String → FsOp
  | execGifsicle : List String → FsOp
  | checkExists : String → FsOp
  | removeAttempt : String → FsOp
deriving DecidableEq, Repr

/-- Which source branch ended the body of the pipeline call. -/
inductive ExitPath where
  | unavailable : ExitPath
  | decodeFail : ExitPath
  | emptyFrames : ExitPath
  | encodeFail : ExitPath
  | gifsicleExit : ExitPath
  | gifsicleTimeout : ExitPath
  | outputMissing : ExitPath
  | success : ExitPath
deriving DecidableEq, Repr

/-- The arguments of the `frames[0].save(...)` call that writes the
intermediate reduced GIF: the retained frame indices (frame 0 plus the
`append_images`), the per-frame `duration`, the `loop` count (0 means
loop forever in the GIF format), and the `optimize` flag. -/
structure SavedGif where
  frames : List Nat
  duration : Nat
  loop : Nat
  optimize : Bool
deriving DecidableEq, Repr

/-- The external world of one pipeline invocation.  `gifsicleAvailable`
models the process-global `GIFSICLE_AVAILABLE` flag probed once at
startup; `clock` is the string `str(time.time())` returned by the wall
clock for this call; `removeFails` tells, per path, whether `os.remove`
raises `OSError`. -/
structure PipelineEnv where
  gifsicleAvailable : Bool
  clock : String
  decode : DecodeOutcome
  encodeFails : Option String
  gifsicle : GifsicleOutcome
  outputExists : Bool
  outputBytes : List Nat
  removeFails : String → Bool

/-- What the `try` body of the pipeline produced, before the `finally`
cleanup: the two return slots, the saved intermediate image if it was
written, the branch taken, whether scratch files B and C exist, and the
filesystem trace so far (scratch file A always exists once the body has
started). -/
structure BodyOut where
  optimized_bytes : Option (List Nat)
  error_message : Option String
  savedImage : Option SavedGif
  path : ExitPath
  existsB : Bool
  existsC : Bool
  ops : List FsOp
deriving DecidableEq, Repr

/-- The observable outcome of one whole pipeline call: the returned pair,
the saved intermediate image, the branch taken, which scratch files
existed when cleanup ran, which remain afterwards, and the full
filesystem trace. -/
structure PipelineResult where
  optimized_bytes : Option (List Nat)
  error_message : Option String
  savedImage : Option SavedGif
  path : ExitPath
  existedA : Bool
  existedB : Bool
  existedC : Bool
  remainsA : Bool
  remainsB : Bool
  remainsC : Bool
  fsOps : List FsOp
deriving DecidableEq, Repr

/-! ## Pipeline constants and helpers, from `app.py` -/

/-- The fixed message returned when gifsicle was not detected at startup. -/
def unavailableMessage : String :=
  "Gifsicle command is unavailable. Please check the server environment."

/-- Model of `str(time.time()).replace('.', '')`: replacing every dot by
the empty string deletes every dot from the clock string. -/
def unique_id (clock : String) : String :=
  String.mk (clock.toList.filter (fun ch => ch ≠ '.'))

/-- Scratch file A: `os.path.join(TEMP_DIR, f'temp_in_full_...gif')`. -/
def input_filename_full (uid : String) : String :=
  "temp_gifsicle_data/temp_in_full_" ++ uid ++ ".gif"

/-- Scratch file B: the reduced intermediate GIF. -/
def temp_filename_reduced (uid : String) : String :=
  "temp_gifsicle_data/temp_reduced_" ++ uid ++ ".gif"

/-- Scratch file C: the gifsicle output. -/
def output_filename (uid : String) : String :=
  "temp_gifsicle_data/temp_out_" ++ uid ++ ".gif"

/-- The frame indices retained by the loop
`for i in range(img.n_frames): if i % 2 == 0: frames.append(...)`. -/
def retainedFrames (n_frames : Nat) : List Nat :=
  (List.range n_frames).filter (fun i => i % 2 == 0)

/-- The message of the `ValueError` raised when no frames survive. -/
def framesErrorText : String := "Could not extract valid frames from GIF."

/-- Wraps a caught exception message the way the generic handler
`except Exception as e` does. -/
def unexpectedErrorMessage (msg : String) : String :=
  "Unexpected error during processing: " ++ msg

/-- The message built in the `except subprocess.CalledProcessError`
branch; empty stripped stderr falls back to the generic text, matching
`std_error or 'Unknown Gifsicle error'`. -/
def gifsicleExitMessage (returncode : Int) (stderr : String) : String :=
  let std_error := pyStrip stderr
  "Gifsicle execution error (Code " ++ toString returncode ++ "): " ++
    (if std_error = "" then "Unknown Gifsicle error" else std_error)

/-- The gifsicle command list built in step 3 of the pipeline. -/
def gifsicleCommand (lossy_value colors_value : Int)
    (reduced out : String) : List String :=
  ["gifsicle", "-O3", "--lossy=" ++ toString lossy_value, "--colors",
   toString colors_value, reduced, "-o", out]

/-- Python `repr` of a list of strings, as interpolated by
`subprocess.TimeoutExpired.__str__`. -/
def pyStrListRepr (xs : List String) : String :=
  "[" ++ String.intercalate ", " (xs.map (fun s => "\x27" ++ s ++ "\x27")) ++ "]"

/-- The `str(e)` of a `subprocess.TimeoutExpired` for the 90-second
timeout, as caught by the generic exception handler. -/
def timeoutMessage (cmd : List String) : String :=
  "Command \x27" ++ pyStrListRepr cmd ++ "\x27 timed out after 90 seconds"

/-- The `try` body of `optimize_gif_with_pillow_and_gifsicle`, after the
availability check and scratch-name computation: write A, decode, drop
odd frames, save B, run gifsicle, check and read C.  Each `DecodeOutcome`
/ `encodeFails` / `GifsicleOutcome` constructor selects the source branch
with the same control flow as the Python `try`/`except` blocks. -/
def runBody (decode : DecodeOutcome) (encodeFails : Option String)
    (gif : GifsicleOutcome) (outputExists : Bool) (outputBytes : List Nat)
    (lossy_value colors_value : Int) (fA fB fC : String) : BodyOut :=
  let baseOps := [FsOp.writeFile fA, FsOp.readFile fA]
  match decode with
  | DecodeOutcome.fail msg =>
    ⟨none, some (unexpectedErrorMessage msg), none, ExitPath.decodeFail,
      false, false, baseOps⟩
  | DecodeOutcome.ok n_frames durOpt =>
    let frames := retainedFrames n_frames
    let original_duration := durOpt.getD 100
    let new_duration := original_duration * 2
    if frames.isEmpty then
      ⟨none, some (unexpectedErrorMessage framesErrorText), none,
        ExitPath.emptyFrames, false, false, baseOps⟩
    else
      match encodeFails with
      | some m =>
        ⟨none, some (unexpectedErrorMessage m), none, ExitPath.encodeFail,
          false, false, baseOps⟩
      | none =>
        let saved : SavedGif := ⟨frames, new_duration, 0, false⟩
        let command := gifsicleCommand lossy_value colors_value fB fC
        let ops2 := baseOps ++ [FsOp.writeFile fB, FsOp.execGifsicle command]
        match gif with
        | GifsicleOutcome.timedOut =>
          ⟨none, some (unexpectedErrorMessage (timeoutMessage command)),
            some saved, ExitPath.gifsicleTimeout, true, outputExists, ops2⟩
        | GifsicleOutcome.exited code stderr =>
          if code = 0 then
            if outputExists then
              ⟨some outputBytes, none, some saved, ExitPath.success, true,
                true, ops2 ++ [FsOp.checkExists fC, FsOp.readFile fC]⟩
            else
              ⟨none,
                some (unexpectedErrorMessage
                  "Gifsicle output file was not created."),
                some saved, ExitPath.outputMissing, true, false,
                ops2 ++ [FsOp.checkExists fC]⟩
          else
            ⟨none, some (gifsicleExitMessage code stderr), some saved,
              ExitPath.gifsicleExit, true, outputExists, ops2⟩

/-- The cleanup trace for one scratch file:
`if os.path.exists(f): try: os.remove(f) except OSError: pass`. -/
def cleanupOps (name : String) (ex : Bool) : List FsOp :=
  if ex then [FsOp.checkExists name, FsOp.removeAttempt name]
  else [FsOp.checkExists name]

/-- The `finally` block applied to the body outcome: best-effort deletion
of each scratch file that exists, a failed `os.remove` (an ignored
`OSError`) leaving the file in place. -/
def finalize (env : PipelineEnv) (fA fB fC : String) (b : BodyOut) :
    PipelineResult :=
  { optimized_bytes := b.optimized_bytes
    error_message := b.error_message
    savedImage := b.savedImage
    path := b.path
    existedA := true
    existedB := b.existsB
    existedC := b.existsC
    remainsA := env.removeFails fA
    remainsB := b.existsB && env.removeFails fB
    remainsC := b.existsC && env.removeFails fC
    fsOps := b.ops ++ cleanupOps fA true ++ cleanupOps fB b.existsB ++
      cleanupOps fC b.existsC }

/-- Model of `optimize_gif_with_pillow_and_gifsicle(input_bytes,
lossy_value, colors_value)` run against one external world `env`.  The
input bytes are written verbatim to scratch file A (their content then
feeds the external decoder, whose outcome `env.decode` supplies); the
unavailability early return happens before any filename is computed. -/
def optimize_gif_with_pillow_and_gifsicle (input_bytes : List Nat)
    (lossy_value colors_value : Int) (env : PipelineEnv) : PipelineResult :=
  if env.gifsicleAvailable then
    let uid := unique_id env.clock
    let fA := input_filename_full uid
    let fB := temp_filename_reduced uid
    let fC := output_filename uid
    let _ := input_bytes
    finalize env fA fB fC
      (runBody env.decode env.encodeFails env.gifsicle env.outputExists
        env.outputBytes lossy_value colors_value fA fB fC)
  else
    ⟨none, some unavailableMessage, none, ExitPath.unavailable, false,
      false, false, false, false, false, []⟩

/-! ## Request handler, from `optimize_gif_endpoint` -/

/-- One multipart upload: the client-declared filename and MIME type and
the file's bytes. -/
structure UploadedFile where
  filename : String
  mimetype : String
  bytes : List Nat
deriving DecidableEq, Repr

/-- Werkzeug's `secure_filename`; filename sanitization is an external
collaborator declared out of scope by the specification, so it is
modelled as the identity on the name. -/
def secure_filename (s : String) : String := s

/-- Python truthiness of the optional bytes slot: `None` and `b''` are
falsy. -/
def pyTruthyBytes : Option (List Nat) → Bool
  | none => false
  | some bs => !bs.isEmpty

/-- Python truthiness of the optional error slot: `None` and `''` are
falsy. -/
def pyTruthyStr : Option String → Bool
  | none => false
  | some s => !s.isEmpty

/-- The dict appended for a file whose MIME type is not `image/gif`; note
its keys, in insertion order: no `optimized_size` key is present. -/
def mimeRejectEntry (filename : String) (original_size : Nat)
    (mimetype : String) : Entry :=
  [("filename", JVal.jstr filename),
   ("original_size", JVal.jnum (original_size : Int)),
   ("error", JVal.jstr ("File is not a GIF file (" ++ mimetype ++ ").")),
   ("optimized_data", JVal.jnull)]

/-- The dict appended after a pipeline call: base64 data and size are
filled in only under `if optimized_data and not error:`, which tests
Python truthiness of both slots. -/
def pipelineEntry (filename : String) (original_size : Nat)
    (optimized_data : Option (List Nat)) (error : Option String) : Entry :=
  let success := pyTruthyBytes optimized_data && !pyTruthyStr error
  let optimized_data_b64 : JVal :=
    match optimized_data with
    | some bs => if success then JVal.jstr (b64encode bs) else JVal.jnull
    | none => JVal.jnull
  let optimized_size : JVal :=
    match optimized_data with
    | some bs => if success then JVal.jnum (bs.length : Int) else JVal.jnull
    | none => JVal.jnull
  [("filename", JVal.jstr filename),
   ("original_size", JVal.jnum (original_size : Int)),
   ("optimized_data", optimized_data_b64),
   ("optimized_size", optimized_size),
   ("error", match error with
             | some m => JVal.jstr m
             | none => JVal.jnull)]

/-- The per-file step of the handler loop: read the bytes, sanitize the
filename, reject a non-GIF MIME type before any decoding, otherwise call
the pipeline.  Returns the result entry together with the filesystem
trace of the pipeline call ([] when the pipeline was never invoked). -/
def processFile (lossy_val colors_val : Int)
    (p : UploadedFile × PipelineEnv) : Entry × List FsOp :=
  let file := p.1
  let input_bytes := file.bytes
  let original_size := input_bytes.length
  let filename := secure_filename file.filename
  if file.mimetype ≠ "image/gif" then
    (mimeRejectEntry filename original_size file.mimetype, [])
  else
    let r := optimize_gif_with_pillow_and_gifsicle input_bytes lossy_val
      colors_val p.2
    (pipelineEntry filename original_size r.optimized_bytes r.error_message,
      r.fsOps)

/-- The handler's HTTP response: a 400 with an error body, or a 200 with
the `results` array. -/
inductive EndpointResponse where
  | badRequest : String → EndpointResponse
  | ok : List Entry → EndpointResponse
deriving DecidableEq

/-- The HTTP status code the handler attaches to each response. -/
def statusOf : EndpointResponse → Nat
  | EndpointResponse.badRequest _ => 400
  | EndpointResponse.ok _ => 200

/-- `request.form.get(key, default)` followed by `int(...)`: an absent
field yields the integer default, a present field is parsed with
Python `int`. -/
def parseSetting (field : Option String) (default : Int) : Option Int :=
  match field with
  | none => some default
  | some s => pyInt s

/-- Model of `optimize_gif_endpoint`: each upload is paired with the
external world its pipeline call observes.  Empty upload list → 400;
unparseable settings → 400; otherwise the clamped settings are applied to
every file in order and the entries are returned with status 200. -/
def optimize_gif_endpoint (uploaded_files : List (UploadedFile × PipelineEnv))
    (lossyField colorsField : Option String) : EndpointResponse :=
  if uploaded_files.isEmpty then
    EndpointResponse.badRequest
      "No files found under the expected \"file\" key."
  else
    match parseSetting lossyField 200, parseSetting colorsField 64 with
    | some lossyRaw, some colorsRaw =>
      let lossy_val := max 0 (min 300 lossyRaw)
      let colors_val := max 2 (min 256 colorsRaw)
      EndpointResponse.ok
        (uploaded_files.map (fun p => (processFile lossy_val colors_val p).1))
    | _, _ =>
      EndpointResponse.badRequest "Invalid optimization settings value."

/-! ## Helper lemmas -/

lemma string_append_ne_empty (s t : String) (h : s ≠ "") : s ++ t ≠ "" := by
  intro he
  apply h
  have hd := congrArg String.data he
  rw [String.data_append] at hd
  rcases List.append_eq_nil.mp hd with ⟨h1, _⟩
  exact String.ext (by simpa using h1)

lemma unexpectedErrorMessage_ne_empty (msg : String) :
    unexpectedErrorMessage msg ≠ "" := by
  unfold unexpectedErrorMessage
  exact string_append_ne_empty _ _ (by decide)

lemma gifsicleExitMessage_ne_empty (c : Int) (s : String) :
    gifsicleExitMessage c s ≠ "" := by
  unfold gifsicleExitMessage
  apply string_append_ne_empty
  apply string_append_ne_empty
  apply string_append_ne_empty
  decide

lemma retainedFrames_succ (n : Nat) :
    retainedFrames (n + 1) =
      retainedFrames n ++ (if n % 2 = 0 then [n] else []) := by
  unfold retainedFrames
  rw [List.range_succ, List.filter_append]
  congr 1
  by_cases h : n % 2 = 0 <;> simp [h]

lemma retainedFrames_eq_map (n : Nat) :
    retainedFrames n = (List.range ((n + 1) / 2)).map (fun k => 2 * k) := by
  induction n with
  | zero => rfl
  | succ n ih =>
    rw [retainedFrames_succ, ih]
    by_cases h : n % 2 = 0
    · have h2 : (n + 1 + 1) / 2 = (n + 1) / 2 + 1 := by omega
      have h3 : 2 * ((n + 1) / 2) = n := by omega
      simp [h, h2, List.range_succ, h3]
    · have h2 : (n + 1 + 1) / 2 = (n + 1) / 2 := by omega
      simp [h, h2]

lemma retainedFrames_length (n : Nat) :
    (retainedFrames n).length = (n + 1) / 2 := by
  rw [retainedFrames_eq_map]
  simp

lemma zero_mem_retainedFrames (n : Nat) (h : 1 ≤ n) :
    0 ∈ retainedFrames n := by
  unfold retainedFrames
  simp only [List.mem_filter, List.mem_range]
  exact ⟨by omega, by decide⟩

lemma retainedFrames_ne_nil (n : Nat) (h : 1 ≤ n) : retainedFrames n ≠ [] :=
  List.ne_nil_of_mem (zero_mem_retainedFrames n h)

lemma retainedFrames_isEmpty_false (n : Nat) (h : 1 ≤ n) :
    (retainedFrames n).isEmpty = false := by
  rw [List.isEmpty_eq_false]
  exact retainedFrames_ne_nil n h

lemma runBody_exclusive (decode : DecodeOutcome) (encodeFails : Option String)
    (gif : GifsicleOutcome) (outputExists : Bool) (outputBytes : List Nat)
    (lossy_value colors_value : Int) (fA fB fC : String) :
    ((runBody decode encodeFails gif outputExists outputBytes lossy_value
        colors_value fA fB fC).optimized_bytes.isSome = true ∧
      (runBody decode encodeFails gif outputExists outputBytes lossy_value
        colors_value fA fB fC).error_message = none) ∨
    ((runBody decode encodeFails gif outputExists outputBytes lossy_value
        colors_value fA fB fC).optimized_bytes = none ∧
      (runBody decode encodeFails gif outputExists outputBytes lossy_value
        colors_value fA fB fC).error_message.isSome = true) := by
  unfold runBody
  rcases decode with msg | ⟨n, dur⟩
  · simp
  · by_cases h : (retainedFrames n).isEmpty
    · simp [h]
    · rcases encodeFails with _ | m
      · rcases gif with ⟨code, stderr⟩ | _
        · by_cases hc : code = (0 : Int) <;> by_cases ho : outputExists <;>
            simp_all
        · simp_all
      · simp_all

lemma runBody_error_ne_empty (decode : DecodeOutcome)
    (encodeFails : Option String) (gif : GifsicleOutcome)
    (outputExists : Bool) (outputBytes : List Nat)
    (lossy_value colors_value : Int) (fA fB fC : String) (m : String)
    (h : (runBody decode encodeFails gif outputExists outputBytes lossy_value
      colors_value fA fB fC).error_message = some m) : m ≠ "" := by
  unfold runBody at h
  rcases decode with msg | ⟨n, dur⟩
  · simp at h
    exact h ▸ unexpectedErrorMessage_ne_empty msg
  · by_cases hf : (retainedFrames n).isEmpty
    · simp [hf] at h
      exact h ▸ unexpectedErrorMessage_ne_empty framesErrorText
    · rcases encodeFails with _ | em
      · rcases gif with ⟨code, stderr⟩ | _
        · by_cases hc : code = (0 : Int)
          · by_cases ho : outputExists <;> simp_all
            exact h ▸ unexpectedErrorMessage_ne_empty _
          · simp_all
            exact h ▸ gifsicleExitMessage_ne_empty code stderr
        · simp_all
          exact h ▸ unexpectedErrorMessage_ne_empty _
      · simp_all
        exact h ▸ unexpectedErrorMessage_ne_empty em

/-- Exactly one return slot of the pipeline is populated, over every
input and every external world. -/
lemma pipeline_exclusive (input_bytes : List Nat)
    (lossy_value colors_value : Int) (env : PipelineEnv) :
    ((optimize_gif_with_pillow_and_gifsicle input_bytes lossy_value
        colors_value env).optimized_bytes.isSome = true ∧
      (optimize_gif_with_pillow_and_gifsicle input_bytes lossy_value
        colors_value env).error_message = none) ∨
    ((optimize_gif_with_pillow_and_gifsicle input_bytes lossy_value
        colors_value env).optimized_bytes = none ∧
      (optimize_gif_with_pillow_and_gifsicle input_bytes lossy_value
        colors_value env).error_message.isSome = true) := by
  unfold optimize_gif_with_pillow_and_gifsicle
  by_cases h : env.gifsicleAvailable
  · simp only [h, if_true]
    have hx := runBody_exclusive env.decode env.encodeFails env.gifsicle
      env.outputExists env.outputBytes lossy_value colors_value
      (input_filename_full (unique_id env.clock))
      (temp_filename_reduced (unique_id env.clock))
      (output_filename (unique_id env.clock))
    simpa [finalize] using hx
  · simp [h]

/-- Every error message the pipeline can return is a non-empty string. -/
lemma pipeline_error_ne_empty (input_bytes : List Nat)
    (lossy_value colors_value : Int) (env : PipelineEnv) (m : String)
    (h : (optimize_gif_with_pillow_and_gifsicle input_bytes lossy_value
      colors_value env).error_message = some m) : m ≠ "" := by
  unfold optimize_gif_with_pillow_and_gifsicle at h
  by_cases hav : env.gifsicleAvailable
  · simp only [hav, if_true, finalize] at h
    exact runBody_error_ne_empty _ _ _ _ _ _ _ _ _ _ m h
  · simp [hav] at h
    rw [← h]
    decide

/-! ## Concrete external worlds used in witnesses and counterexamples -/

/-- A fully successful external world: gifsicle present, a three-frame
GIF with a 40ms first-frame duration, a clean gifsicle run producing the
bytes `GIF`, and no deletion failures. -/
def envSuccess : PipelineEnv :=
  { gifsicleAvailable := true
    clock := "1.5"
    decode := DecodeOutcome.ok 3 (some 40)
    encodeFails := none
    gifsicle := GifsicleOutcome.exited 0 ""
    outputExists := true
    outputBytes := [71, 73, 70]
    removeFails := fun _ => false }

/-- The world of a process whose startup probe did not find gifsicle. -/
def envUnavailable : PipelineEnv :=
  { envSuccess with gifsicleAvailable := false }

/-- A world in which gifsicle exits cleanly but its output file is empty,
so the pipeline returns `(b'', None)`. -/
def envEmptyOutput : PipelineEnv :=
  { envSuccess with decode := DecodeOutcome.ok 1 none, outputBytes := [] }

/-- A world in which decoding raises and the deletion of scratch file A
fails with an ignored `OSError` (clock "1.5" makes A's path
`temp_gifsicle_data/temp_in_full_15.gif`). -/
def envRemoveFailsA : PipelineEnv :=
  { envSuccess with
    decode := DecodeOutcome.fail "cannot identify image file"
    removeFails := fun name => name == "temp_gifsicle_data/temp_in_full_15.gif" }

/-- An uploaded file whose declared MIME type is PNG, not GIF. -/
def pngFile : UploadedFile :=
  { filename := "a.png", mimetype := "image/png", bytes := [137, 80] }

/-- An uploaded file whose declared MIME type is GIF. -/
def gifFile : UploadedFile :=
  { filename := "a.gif", mimetype := "image/gif", bytes := [71, 73, 70, 56] }

/-! ## Claims -/

/-- C4: for every input bytes and settings pair and every external world,
`optimize_gif_with_pillow_and_gifsicle` returns a pair with exactly one
slot populated — optimized bytes with no error message, or no bytes with
an error message — never both and never neither; being a total function
of its inputs it propagates no exception to the caller. -/
theorem c4_pipeline_exactly_one_slot (input_bytes : List Nat)
    (lossy_value colors_value : Int) (env : PipelineEnv) :
    ((optimize_gif_with_pillow_and_gifsicle input_bytes lossy_value
        colors_value env).optimized_bytes.isSome = true ∧
      (optimize_gif_with_pillow_and_gifsicle input_bytes lossy_value
        colors_value env).error_message = none) ∨
    ((optimize_gif_with_pillow_and_gifsicle input_bytes lossy_value
        colors_value env).optimized_bytes = none ∧
      (optimize_gif_with_pillow_and_gifsicle input_bytes lossy_value
        colors_value env).error_message.isSome = true) :=
  pipeline_exclusive input_bytes lossy_value colors_value env

/-- C8: when the startup probe found no gifsicle binary, every pipeline
call returns immediately with no bytes and the one fixed unavailability
message, takes the `unavailable` exit, and performs no filesystem work at
all: its trace is empty and no scratch file ever exists. -/
theorem c8_unavailable_no_fs_work (input_bytes : List Nat)
    (lossy_value colors_value : Int) (env : PipelineEnv)
    (h : env.gifsicleAvailable = false) :
    optimize_gif_with_pillow_and_gifsicle input_bytes lossy_value
        colors_value env =
      ⟨none, some unavailableMessage, none, ExitPath.unavailable, false,
        false, false, false, false, false, []⟩ := by
  unfold optimize_gif_with_pillow_and_gifsicle
  simp [h]

/-- Witness for C8 at a concrete input and world. -/
theorem c8_unavailable_no_fs_work_witness :
    optimize_gif_with_pillow_and_gifsicle [1, 2, 3] 200 64 envUnavailable =
      ⟨none, some unavailableMessage, none, ExitPath.unavailable, false,
        false, false, false, false, false, []⟩ :=
  c8_unavailable_no_fs_work [1, 2, 3] 200 64 envUnavailable rfl

/-- C5 (refuting evaluation): the scratch identifier is
`str(time.time())` with the dot deleted, a pure function of the clock
string that is not even injective: the distinct clock readings `1.23`
and `12.3` yield the same identifier `123`, hence identical scratch-file
paths A, B and C for the two invocations; two concurrent invocations
observing the same clock value likewise share all three paths. -/
theorem c5_unique_id_collision :
    unique_id "1.23" = unique_id "12.3" ∧
    ("1.23" : String) ≠ "12.3" ∧
    unique_id "1.23" = "123" ∧
    input_filename_full (unique_id "1.23") =
      input_filename_full (unique_id "12.3") ∧
    temp_filename_reduced (unique_id "1.23") =
      temp_filename_reduced (unique_id "12.3") ∧
    output_filename (unique_id "1.23") =
      output_filename (unique_id "12.3") := by
  decide

/-- C10: when the input decodes to an image with `n_frames ≥ 1`, index 0
is even and retained, so the retained-frame list is non-empty and the
`Could not extract valid frames from GIF.` branch cannot be taken. -/
theorem c10_empty_frames_unreachable (input_bytes : List Nat)
    (lossy_value colors_value : Int) (env : PipelineEnv) (n : Nat)
    (dur : Option Nat) (hdec : env.decode = DecodeOutcome.ok n dur)
    (hn : 1 ≤ n) :
    0 ∈ retainedFrames n ∧ retainedFrames n ≠ [] ∧
    (optimize_gif_with_pillow_and_gifsicle input_bytes lossy_value
      colors_value env).path ≠ ExitPath.emptyFrames := by
  refine ⟨zero_mem_retainedFrames n hn, retainedFrames_ne_nil n hn, ?_⟩
  unfold optimize_gif_with_pillow_and_gifsicle
  by_cases hav : env.gifsicleAvailable
  · simp only [hav, if_true, finalize]
    rw [hdec]
    unfold runBody
    simp only [retainedFrames_isEmpty_false n hn, Bool.false_eq_true,
      if_false]
    rcases env.encodeFails with _ | m
    · rcases env.gifsicle with ⟨code, stderr⟩ | _
      · by_cases hc : code = (0 : Int) <;>
          by_cases ho : env.outputExists <;> simp_all
      · simp
    · simp
  · simp [hav]

/-- Witness for C10 at a three-frame decode. -/
theorem c10_empty_frames_unreachable_witness :
    0 ∈ retainedFrames 3 ∧ retainedFrames 3 ≠ [] ∧
    (optimize_gif_with_pillow_and_gifsicle [9] 200 64 envSuccess).path ≠
      ExitPath.emptyFrames :=
  c10_empty_frames_unreachable [9] 200 64 envSuccess 3 (some 40) rfl
    (by decide)

/-- C1: for a well-formed decode with `n ≥ 1` frames and a successful
re-encode, the intermediate image handed to `frames[0].save` holds
exactly the frames at even indices `0, 2, 4, ...` — that is
`⌈n/2⌉ = (n+1)/2` frames — with per-frame duration twice the original
duration read from the first frame's metadata (default 100 when absent),
`loop = 0` (infinite looping in the GIF format) and Pillow's own
optimization pass disabled; with `n = 1` the retained list `[0]` is
non-empty, so the minimal input does not fail at this stage. -/
theorem c1_even_index_decimation (input_bytes : List Nat)
    (lossy_value colors_value : Int) (env : PipelineEnv) (n : Nat)
    (dur : Option Nat) (hav : env.gifsicleAvailable = true)
    (hdec : env.decode = DecodeOutcome.ok n dur)
    (henc : env.encodeFails = none) (hn : 1 ≤ n) :
    (optimize_gif_with_pillow_and_gifsicle input_bytes lossy_value
        colors_value env).savedImage =
      some ⟨retainedFrames n, dur.getD 100 * 2, 0, false⟩ ∧
    (retainedFrames n).length = (n + 1) / 2 ∧
    retainedFrames n = (List.range ((n + 1) / 2)).map (fun k => 2 * k) ∧
    retainedFrames n ≠ [] := by
  refine ⟨?_, retainedFrames_length n, retainedFrames_eq_map n,
    retainedFrames_ne_nil n hn⟩
  unfold optimize_gif_with_pillow_and_gifsicle
  simp only [hav, if_true, finalize]
  rw [hdec, henc]
  unfold runBody
  simp only [retainedFrames_isEmpty_false n hn, Bool.false_eq_true,
    if_false]
  rcases env.gifsicle with ⟨code, stderr⟩ | _
  · by_cases hc : code = (0 : Int) <;>
      by_cases ho : env.outputExists <;> simp_all
  · simp

/-- Witness for C1: a three-frame GIF with duration 40 keeps frames
`[0, 2]` and is saved with duration 80, infinite loop. -/
theorem c1_even_index_decimation_witness :
    (optimize_gif_with_pillow_and_gifsicle [9] 200 64
        envSuccess).savedImage =
      some ⟨retainedFrames 3, (some 40).getD 100 * 2, 0, false⟩ ∧
    (retainedFrames 3).length = (3 + 1) / 2 ∧
    retainedFrames 3 = (List.range ((3 + 1) / 2)).map (fun k => 2 * k) ∧
    retainedFrames 3 ≠ [] :=
  c1_even_index_decimation [9] 200 64 envSuccess 3 (some 40) rfl rfl rfl
    (by decide)

/-- C9 counterexample: in a world where the deletion of scratch file A
raises an ignored `OSError`, the deletion is attempted but the artifact
still exists after the call returns, so the claim's conjunct that no
scratch artifact created by the invocation remains is false. -/
theorem c9_counterexample :
    (optimize_gif_with_pillow_and_gifsicle [5] 200 64
      envRemoveFailsA).existedA = true ∧
    FsOp.removeAttempt "temp_gifsicle_data/temp_in_full_15.gif" ∈
      (optimize_gif_with_pillow_and_gifsicle [5] 200 64
        envRemoveFailsA).fsOps ∧
    (optimize_gif_with_pillow_and_gifsicle [5] 200 64
      envRemoveFailsA).remainsA = true := by
  decide

/-- C9 (amended): past the availability check, on every exit path the
cleanup attempts a deletion for each of the three scratch files that
exists at that point; deletion failures are ignored, leaving the returned
pair unchanged; and whenever every attempted deletion succeeds, no
scratch artifact of the invocation remains after the call returns. -/
theorem c9_cleanup_every_exit_path (input_bytes : List Nat)
    (lossy_value colors_value : Int) (env : PipelineEnv)
    (hav : env.gifsicleAvailable = true) :
    (FsOp.removeAttempt (input_filename_full (unique_id env.clock)) ∈
      (optimize_gif_with_pillow_and_gifsicle input_bytes lossy_value
        colors_value env).fsOps) ∧
    ((optimize_gif_with_pillow_and_gifsicle input_bytes lossy_value
        colors_value env).existedB = true →
      FsOp.removeAttempt (temp_filename_reduced (unique_id env.clock)) ∈
        (optimize_gif_with_pillow_and_gifsicle input_bytes lossy_value
          colors_value env).fsOps) ∧
    ((optimize_gif_with_pillow_and_gifsicle input_bytes lossy_value
        colors_value env).existedC = true →
      FsOp.removeAttempt (output_filename (unique_id env.clock)) ∈
        (optimize_gif_with_pillow_and_gifsicle input_bytes lossy_value
          colors_value env).fsOps) ∧
    (∀ g : String → Bool,
      (optimize_gif_with_pillow_and_gifsicle input_bytes lossy_value
        colors_value { env with removeFails := g }).optimized_bytes =
        (optimize_gif_with_pillow_and_gifsicle input_bytes lossy_value
          colors_value env).optimized_bytes ∧
      (optimize_gif_with_pillow_and_gifsicle input_bytes lossy_value
        colors_value { env with removeFails := g }).error_message =
        (optimize_gif_with_pillow_and_gifsicle input_bytes lossy_value
          colors_value env).error_message) ∧
    ((env.removeFails (input_filename_full (unique_id env.clock)) =
        false →
      (optimize_gif_with_pillow_and_gifsicle input_bytes lossy_value
        colors_value env).remainsA = false) ∧
     (env.removeFails (temp_filename_reduced (unique_id env.clock)) =
        false →
      (optimize_gif_with_pillow_and_gifsicle input_bytes lossy_value
        colors_value env).remainsB = false) ∧
     (env.removeFails (output_filename (unique_id env.clock)) = false →
      (optimize_gif_with_pillow_and_gifsicle input_bytes lossy_value
        colors_value env).remainsC = false)) := by
  obtain ⟨av, ck, dec, enc, gif, oe, ob, rf⟩ := env
  simp only at hav
  subst hav
  refine ⟨?_, ?_, ?_, ?_, ?_, ?_, ?_⟩
  · simp [optimize_gif_with_pillow_and_gifsicle, finalize, cleanupOps]
  · intro hB
    simp only [optimize_gif_with_pillow_and_gifsicle, if_true,
      finalize] at hB ⊢
    simp [cleanupOps, hB]
  · intro hC
    simp only [optimize_gif_with_pillow_and_gifsicle, if_true,
      finalize] at hC ⊢
    simp [cleanupOps, hC]
  · intro g
    exact ⟨rfl, rfl⟩
  · intro h
    simp only [optimize_gif_with_pillow_and_gifsicle, if_true, finalize]
    exact h
  · intro h
    simp only [optimize_gif_with_pillow_and_gifsicle, if_true, finalize]
    simp
    intro _
    exact h
  · intro h
    simp only [optimize_gif_with_pillow_and_gifsicle, if_true, finalize]
    simp
    intro _
    exact h

/-- Witness for the amended C9 at a concrete successful run. -/
theorem c9_cleanup_every_exit_path_witness :
    (FsOp.removeAttempt (input_filename_full (unique_id envSuccess.clock)) ∈
      (optimize_gif_with_pillow_and_gifsicle [9] 200 64
        envSuccess).fsOps) ∧
    ((optimize_gif_with_pillow_and_gifsicle [9] 200 64
        envSuccess).existedB = true →
      FsOp.removeAttempt (temp_filename_reduced (unique_id envSuccess.clock)) ∈
        (optimize_gif_with_pillow_and_gifsicle [9] 200 64
          envSuccess).fsOps) ∧
    ((optimize_gif_with_pillow_and_gifsicle [9] 200 64
        envSuccess).existedC = true →
      FsOp.removeAttempt (output_filename (unique_id envSuccess.clock)) ∈
        (optimize_gif_with_pillow_and_gifsicle [9] 200 64
          envSuccess).fsOps) ∧
    (∀ g : String → Bool,
      (optimize_gif_with_pillow_and_gifsicle [9] 200 64
        { envSuccess with removeFails := g }).optimized_bytes =
        (optimize_gif_with_pillow_and_gifsicle [9] 200 64
          envSuccess).optimized_bytes ∧
      (optimize_gif_with_pillow_and_gifsicle [9] 200 64
        { envSuccess with removeFails := g }).error_message =
        (optimize_gif_with_pillow_and_gifsicle [9] 200 64
          envSuccess).error_message) ∧
    ((envSuccess.removeFails (input_filename_full (unique_id envSuccess.clock)) =
        false →
      (optimize_gif_with_pillow_and_gifsicle [9] 200 64
        envSuccess).remainsA = false) ∧
     (envSuccess.removeFails (temp_filename_reduced (unique_id envSuccess.clock)) =
        false →
      (optimize_gif_with_pillow_and_gifsicle [9] 200 64
        envSuccess).remainsB = false) ∧
     (envSuccess.removeFails (output_filename (unique_id envSuccess.clock)) =
        false →
      (optimize_gif_with_pillow_and_gifsicle [9] 200 64
        envSuccess).remainsC = false)) :=
  c9_cleanup_every_exit_path [9] 200 64 envSuccess rfl

/-- C2 counterexample: a request uploading one PNG-typed file with both
settings absent gets a 200 response with one entry, but that entry lacks
the `optimized_size` key entirely — the MIME-reject branch appends a
four-key dict — so the claim that every entry carries all five fields is
false. -/
theorem c2_counterexample :
    optimize_gif_endpoint [(pngFile, envSuccess)] none none =
      EndpointResponse.ok [mimeRejectEntry "a.png" 2 "image/png"] ∧
    statusOf (optimize_gif_endpoint [(pngFile, envSuccess)] none none) =
      200 ∧
    entryKeys (mimeRejectEntry "a.png" 2 "image/png") =
      ["filename", "original_size", "error", "optimized_data"] ∧
    ¬ ("optimized_size" ∈
        entryKeys (mimeRejectEntry "a.png" 2 "image/png")) := by
  decide

/-- C2 (amended): with at least one uploaded file and both settings
parsing as integers, the endpoint responds 200 with exactly one entry per
file in upload order; entries produced from a pipeline call carry all
five fields, while MIME-rejected entries carry only the four fields
`filename`, `original_size`, `error`, `optimized_data` and lack
`optimized_size`. -/
theorem c2_response_shape (files : List (UploadedFile × PipelineEnv))
    (lossyField colorsField : Option String) (lossyRaw colorsRaw : Int)
    (hne : files ≠ [])
    (hl : parseSetting lossyField 200 = some lossyRaw)
    (hc : parseSetting colorsField 64 = some colorsRaw) :
    optimize_gif_endpoint files lossyField colorsField =
      EndpointResponse.ok (files.map (fun p =>
        (processFile (max 0 (min 300 lossyRaw))
          (max 2 (min 256 colorsRaw)) p).1)) ∧
    statusOf (optimize_gif_endpoint files lossyField colorsField) = 200 ∧
    (files.map (fun p =>
      (processFile (max 0 (min 300 lossyRaw))
        (max 2 (min 256 colorsRaw)) p).1)).length = files.length ∧
    ∀ p ∈ files,
      entryKeys ((processFile (max 0 (min 300 lossyRaw))
          (max 2 (min 256 colorsRaw)) p).1) =
        (if p.1.mimetype = "image/gif" then
          ["filename", "original_size", "optimized_data",
            "optimized_size", "error"]
        else ["filename", "original_size", "error", "optimized_data"]) := by
  have h0 : files.isEmpty = false := List.isEmpty_eq_false.mpr hne
  have hresp : optimize_gif_endpoint files lossyField colorsField =
      EndpointResponse.ok (files.map (fun p =>
        (processFile (max 0 (min 300 lossyRaw))
          (max 2 (min 256 colorsRaw)) p).1)) := by
    unfold optimize_gif_endpoint
    rw [hl, hc]
    simp [h0]
  refine ⟨hresp, by rw [hresp]; rfl, by simp, ?_⟩
  intro p _
  by_cases hm : p.1.mimetype = "image/gif"
  · simp [processFile, hm, pipelineEntry, entryKeys]
  · simp [processFile, hm, mimeRejectEntry, entryKeys]

/-- Witness for the amended C2: one GIF and one PNG upload with default
settings. -/
theorem c2_response_shape_witness :
    optimize_gif_endpoint [(gifFile, envSuccess), (pngFile, envSuccess)]
        none none =
      EndpointResponse.ok
        ([(gifFile, envSuccess), (pngFile, envSuccess)].map (fun p =>
          (processFile (max 0 (min 300 200)) (max 2 (min 256 64)) p).1)) ∧
    statusOf (optimize_gif_endpoint
      [(gifFile, envSuccess), (pngFile, envSuccess)] none none) = 200 ∧
    ([(gifFile, envSuccess), (pngFile, envSuccess)].map (fun p =>
      (processFile (max 0 (min 300 200)) (max 2 (min 256 64)) p).1)).length =
      [(gifFile, envSuccess), (pngFile, envSuccess)].length ∧
    ∀ p ∈ [(gifFile, envSuccess), (pngFile, envSuccess)],
      entryKeys ((processFile (max 0 (min 300 200))
          (max 2 (min 256 64)) p).1) =
        (if p.1.mimetype = "image/gif" then
          ["filename", "original_size", "optimized_data",
            "optimized_size", "error"]
        else ["filename", "original_size", "error", "optimized_data"]) :=
  c2_response_shape [(gifFile, envSuccess), (pngFile, envSuccess)]
    none none 200 64 (List.cons_ne_nil _ _) rfl rfl

/-- C3 counterexample: a world in which gifsicle exits cleanly but its
output file is empty makes the pipeline return `(b'', None)` — optimized
bytes present (the empty byte string) and no error — yet the handler's
truthiness test `if optimized_data and not error` fails, producing an
entry whose `optimized_data`, `optimized_size` and `error` are all null:
not the base64 encoding `""` of those bytes, and not exactly one non-null
slot among `optimized_data` and `error`. -/
theorem c3_counterexample :
    (optimize_gif_with_pillow_and_gifsicle [9] 200 64
      envEmptyOutput).optimized_bytes = some [] ∧
    (optimize_gif_with_pillow_and_gifsicle [9] 200 64
      envEmptyOutput).error_message = none ∧
    b64encode [] = "" ∧
    pipelineEntry "a.gif" 1 (some []) none =
      [("filename", JVal.jstr "a.gif"),
       ("original_size", JVal.jnum 1),
       ("optimized_data", JVal.jnull),
       ("optimized_size", JVal.jnull),
       ("error", JVal.jnull)] := by
  decide

/-- C3 (amended): for every pipeline outcome mapped by the handler: when
the pipeline returns non-empty optimized bytes, the entry carries their
base64 encoding, their length, and a null error; when it returns an error
message, the entry carries that string with both optimized fields null;
when it returns empty optimized bytes and no error, all three fields are
null.  Exactly one of `optimized_data` and `error` is non-null whenever
the returned bytes are non-empty or an error is present. -/
theorem c3_entry_mapping (filename : String) (original_size : Nat)
    (input_bytes : List Nat) (lossy_value colors_value : Int)
    (env : PipelineEnv) :
    (∀ bs, (optimize_gif_with_pillow_and_gifsicle input_bytes lossy_value
        colors_value env).optimized_bytes = some bs → bs ≠ [] →
      pipelineEntry filename original_size
        (optimize_gif_with_pillow_and_gifsicle input_bytes lossy_value
          colors_value env).optimized_bytes
        (optimize_gif_with_pillow_and_gifsicle input_bytes lossy_value
          colors_value env).error_message =
        [("filename", JVal.jstr filename),
         ("original_size", JVal.jnum (original_size : Int)),
         ("optimized_data", JVal.jstr (b64encode bs)),
         ("optimized_size", JVal.jnum (bs.length : Int)),
         ("error", JVal.jnull)]) ∧
    (∀ m, (optimize_gif_with_pillow_and_gifsicle input_bytes lossy_value
        colors_value env).error_message = some m →
      pipelineEntry filename original_size
        (optimize_gif_with_pillow_and_gifsicle input_bytes lossy_value
          colors_value env).optimized_bytes
        (optimize_gif_with_pillow_and_gifsicle input_bytes lossy_value
          colors_value env).error_message =
        [("filename", JVal.jstr filename),
         ("original_size", JVal.jnum (original_size : Int)),
         ("optimized_data", JVal.jnull),
         ("optimized_size", JVal.jnull),
         ("error", JVal.jstr m)]) ∧
    ((optimize_gif_with_pillow_and_gifsicle input_bytes lossy_value
        colors_value env).optimized_bytes = some [] →
      pipelineEntry filename original_size
        (optimize_gif_with_pillow_and_gifsicle input_bytes lossy_value
          colors_value env).optimized_bytes
        (optimize_gif_with_pillow_and_gifsicle input_bytes lossy_value
          colors_value env).error_message =
        [("filename", JVal.jstr filename),
         ("original_size", JVal.jnum (original_size : Int)),
         ("optimized_data", JVal.jnull),
         ("optimized_size", JVal.jnull),
         ("error", JVal.jnull)]) := by
  refine ⟨?_, ?_, ?_⟩
  · intro bs hb hbne
    have herr : (optimize_gif_with_pillow_and_gifsicle input_bytes
        lossy_value colors_value env).error_message = none := by
      rcases pipeline_exclusive input_bytes lossy_value colors_value env
        with ⟨_, h2⟩ | ⟨h1, _⟩
      · exact h2
      · rw [hb] at h1
        exact absurd h1 (by simp)
    rw [hb, herr]
    simp [pipelineEntry, pyTruthyBytes, pyTruthyStr,
      List.isEmpty_eq_false.mpr hbne]
  · intro m hm
    have hob : (optimize_gif_with_pillow_and_gifsicle input_bytes
        lossy_value colors_value env).optimized_bytes = none := by
      rcases pipeline_exclusive input_bytes lossy_value colors_value env
        with ⟨_, h2⟩ | ⟨h1, _⟩
      · rw [hm] at h2
        exact absurd h2 (by simp)
      · exact h1
    rw [hob, hm]
    simp [pipelineEntry, pyTruthyBytes, pyTruthyStr]
  · intro hb
    have herr : (optimize_gif_with_pillow_and_gifsicle input_bytes
        lossy_value colors_value env).error_message = none := by
      rcases pipeline_exclusive input_bytes lossy_value colors_value env
        with ⟨_, h2⟩ | ⟨h1, _⟩
      · exact h2
      · rw [hb] at h1
        exact absurd h1 (by simp)
    rw [hb, herr]
    simp [pipelineEntry, pyTruthyBytes, pyTruthyStr]

/-- Witness for the amended C3: the success mapping at a concrete
successful world and the error mapping at the unavailable world. -/
theorem c3_entry_mapping_witness :
    (pipelineEntry "a.gif" 4
        (optimize_gif_with_pillow_and_gifsicle [9] 200 64
          envSuccess).optimized_bytes
        (optimize_gif_with_pillow_and_gifsicle [9] 200 64
          envSuccess).error_message =
      [("filename", JVal.jstr "a.gif"),
       ("original_size", JVal.jnum (4 : Int)),
       ("optimized_data", JVal.jstr (b64encode [71, 73, 70])),
       ("optimized_size", JVal.jnum (([71, 73, 70] : List Nat).length : Int)),
       ("error", JVal.jnull)]) ∧
    (pipelineEntry "b.gif" 0
        (optimize_gif_with_pillow_and_gifsicle [1] 200 64
          envUnavailable).optimized_bytes
        (optimize_gif_with_pillow_and_gifsicle [1] 200 64
          envUnavailable).error_message =
      [("filename", JVal.jstr "b.gif"),
       ("original_size", JVal.jnum (0 : Int)),
       ("optimized_data", JVal.jnull),
       ("optimized_size", JVal.jnull),
       ("error", JVal.jstr unavailableMessage)]) :=
  ⟨(c3_entry_mapping "a.gif" 4 [9] 200 64 envSuccess).1 [71, 73, 70]
      (by decide) (by decide),
   (c3_entry_mapping "b.gif" 0 [1] 200 64 envUnavailable).2.1
      unavailableMessage (by decide)⟩

/-- C6: settings handling of the endpoint — absent fields default to 200
and 64; a present field whose string does not parse as an integer makes
the whole request fail with the 400 invalid-settings body; parseable
values are silently clamped, `lossy` to `[0, 300]` (−10 becomes 0, 9999
becomes 300, in-range values unchanged) and `colors` to `[2, 256]`; and
the clamped pair is the one handed to `processFile`, hence to every
file's pipeline call, in the request. -/
theorem c6_settings_parse_clamp (files : List (UploadedFile × PipelineEnv))
    (hne : files ≠ []) :
    parseSetting none 200 = some 200 ∧
    parseSetting none 64 = some 64 ∧
    (∀ s cf, pyInt s = none →
      optimize_gif_endpoint files (some s) cf =
        EndpointResponse.badRequest "Invalid optimization settings value." ∧
      statusOf (optimize_gif_endpoint files (some s) cf) = 400) ∧
    (∀ lf s, pyInt s = none →
      optimize_gif_endpoint files lf (some s) =
        EndpointResponse.badRequest "Invalid optimization settings value." ∧
      statusOf (optimize_gif_endpoint files lf (some s)) = 400) ∧
    max 0 (min 300 (-10 : Int)) = 0 ∧
    max 0 (min 300 (9999 : Int)) = 300 ∧
    (∀ v : Int, 0 ≤ v → v ≤ 300 → max 0 (min 300 v) = v) ∧
    (∀ v : Int, 2 ≤ v → v ≤ 256 → max 2 (min 256 v) = v) ∧
    (∀ v : Int, 0 ≤ max 0 (min 300 v) ∧ max 0 (min 300 v) ≤ 300) ∧
    (∀ v : Int, 2 ≤ max 2 (min 256 v) ∧ max 2 (min 256 v) ≤ 256) ∧
    (∀ lf cf lossyRaw colorsRaw,
      parseSetting lf 200 = some lossyRaw →
      parseSetting cf 64 = some colorsRaw →
      optimize_gif_endpoint files lf cf =
        EndpointResponse.ok (files.map (fun p =>
          (processFile (max 0 (min 300 lossyRaw))
            (max 2 (min 256 colorsRaw)) p).1))) := by
  have h0 : files.isEmpty = false := List.isEmpty_eq_false.mpr hne
  refine ⟨rfl, rfl, ?_, ?_, by omega, by omega,
    fun v h1 h2 => by omega, fun v h1 h2 => by omega,
    fun v => ⟨by omega, by omega⟩, fun v => ⟨by omega, by omega⟩, ?_⟩
  · intro s cf hs
    have hl : parseSetting (some s) 200 = none := by
      simp [parseSetting, hs]
    have hresp : optimize_gif_endpoint files (some s) cf =
        EndpointResponse.badRequest "Invalid optimization settings value." := by
      unfold optimize_gif_endpoint
      rw [hl]
      rcases hcf : parseSetting cf 64 with _ | v <;> simp [h0]
    exact ⟨hresp, by rw [hresp]; rfl⟩
  · intro lf s hs
    have hc : parseSetting (some s) 64 = none := by
      simp [parseSetting, hs]
    have hresp : optimize_gif_endpoint files lf (some s) =
        EndpointResponse.badRequest "Invalid optimization settings value." := by
      unfold optimize_gif_endpoint
      rw [hc]
      rcases hlf : parseSetting lf 200 with _ | v <;> simp [h0]
    exact ⟨hresp, by rw [hresp]; rfl⟩
  · intro lf cf lossyRaw colorsRaw hl hc
    unfold optimize_gif_endpoint
    rw [hl, hc]
    simp [h0]

/-- Witness for C6 at a one-file request. -/
theorem c6_settings_parse_clamp_witness :
    parseSetting none 200 = some 200 ∧
    parseSetting none 64 = some 64 ∧
    (∀ s cf, pyInt s = none →
      optimize_gif_endpoint [(gifFile, envSuccess)] (some s) cf =
        EndpointResponse.badRequest "Invalid optimization settings value." ∧
      statusOf (optimize_gif_endpoint [(gifFile, envSuccess)] (some s) cf) =
        400) ∧
    (∀ lf s, pyInt s = none →
      optimize_gif_endpoint [(gifFile, envSuccess)] lf (some s) =
        EndpointResponse.badRequest "Invalid optimization settings value." ∧
      statusOf (optimize_gif_endpoint [(gifFile, envSuccess)] lf (some s)) =
        400) ∧
    max 0 (min 300 (-10 : Int)) = 0 ∧
    max 0 (min 300 (9999 : Int)) = 300 ∧
    (∀ v : Int, 0 ≤ v → v ≤ 300 → max 0 (min 300 v) = v) ∧
    (∀ v : Int, 2 ≤ v → v ≤ 256 → max 2 (min 256 v) = v) ∧
    (∀ v : Int, 0 ≤ max 0 (min 300 v) ∧ max 0 (min 300 v) ≤ 300) ∧
    (∀ v : Int, 2 ≤ max 2 (min 256 v) ∧ max 2 (min 256 v) ≤ 256) ∧
    (∀ lf cf lossyRaw colorsRaw,
      parseSetting lf 200 = some lossyRaw →
      parseSetting cf 64 = some colorsRaw →
      optimize_gif_endpoint [(gifFile, envSuccess)] lf cf =
        EndpointResponse.ok ([(gifFile, envSuccess)].map (fun p =>
          (processFile (max 0 (min 300 lossyRaw))
            (max 2 (min 256 colorsRaw)) p).1))) :=
  c6_settings_parse_clamp [(gifFile, envSuccess)] (List.cons_ne_nil _ _)

/-- C7: a file whose declared MIME type is not `image/gif` is rejected
before the pipeline runs — its per-file step performs no filesystem
operation at all — and its entry carries the descriptive non-null error
with `optimized_data` null; and since each entry is the image of its own
(file, world) pair under `processFile`, the entries of all other files in
the request are exactly those they would have without the rejected file
present. -/
theorem c7_mime_reject_independent (lossy_val colors_val : Int)
    (xs zs : List (UploadedFile × PipelineEnv))
    (y : UploadedFile × PipelineEnv)
    (hm : y.1.mimetype ≠ "image/gif") :
    processFile lossy_val colors_val y =
      (mimeRejectEntry (secure_filename y.1.filename) y.1.bytes.length
        y.1.mimetype, []) ∧
    ("error", JVal.jstr ("File is not a GIF file (" ++ y.1.mimetype ++ ").")) ∈
      (processFile lossy_val colors_val y).1 ∧
    ("optimized_data", JVal.jnull) ∈ (processFile lossy_val colors_val y).1 ∧
    (xs ++ y :: zs).map (fun p => (processFile lossy_val colors_val p).1) =
      xs.map (fun p => (processFile lossy_val colors_val p).1) ++
        (processFile lossy_val colors_val y).1 ::
          zs.map (fun p => (processFile lossy_val colors_val p).1) ∧
    (xs ++ zs).map (fun p => (processFile lossy_val colors_val p).1) =
      xs.map (fun p => (processFile lossy_val colors_val p).1) ++
        zs.map (fun p => (processFile lossy_val colors_val p).1) := by
  have h1 : processFile lossy_val colors_val y =
      (mimeRejectEntry (secure_filename y.1.filename) y.1.bytes.length
        y.1.mimetype, []) := by
    unfold processFile
    simp [hm]
  refine ⟨h1, ?_, ?_, by simp, by simp⟩
  · rw [h1]
    simp [mimeRejectEntry]
  · rw [h1]
    simp [mimeRejectEntry]

/-- Witness for C7: a PNG rejected alongside an untouched GIF list. -/
theorem c7_mime_reject_independent_witness :
    processFile 200 64 (pngFile, envSuccess) =
      (mimeRejectEntry (secure_filename pngFile.filename)
        pngFile.bytes.length pngFile.mimetype, []) ∧
    ("error", JVal.jstr ("File is not a GIF file (" ++ pngFile.mimetype ++ ").")) ∈
      (processFile 200 64 (pngFile, envSuccess)).1 ∧
    ("optimized_data", JVal.jnull) ∈
      (processFile 200 64 (pngFile, envSuccess)).1 ∧
    ([(gifFile, envSuccess)] ++ (pngFile, envSuccess) :: []).map
        (fun p => (processFile 200 64 p).1) =
      [(gifFile, envSuccess)].map (fun p => (processFile 200 64 p).1) ++
        (processFile 200 64 (pngFile, envSuccess)).1 ::
          ([] : List (UploadedFile × PipelineEnv)).map
            (fun p => (processFile 200 64 p).1) ∧
    ([(gifFile, envSuccess)] ++ ([] : List (UploadedFile × PipelineEnv))).map
        (fun p => (processFile 200 64 p).1) =
      [(gifFile, envSuccess)].map (fun p => (processFile 200 64 p).1) ++
        ([] : List (UploadedFile × PipelineEnv)).map
          (fun p => (processFile 200 64 p).1) :=
  c7_mime_reject_independent 200 64 [(gifFile, envSuccess)] []
    (pngFile, envSuccess) (by decide)
